import Mathlib

/-!
Shallow embedding of `sht4x_trinkey_logger.py` (an SHT4x Trinkey multi-device
serial data logger) and proofs about its line parser, header construction,
per-tick row emission, serial-port opening and shutdown paths.

Modelling conventions:
* Python exceptions are modelled with `Except PyError`; a function whose body
  can raise an exception that is not caught inside it returns `Except`.
* Python `float` values in the lines at hand are decimal literals; we model
  the value of a parsed number exactly as a rational (`ℚ`, built with `mkRat`),
  since the program performs no floating-point arithmetic on them.
* `None` cells of a CSV row are `Option.none`.
* I/O (pyserial reads, `time.time()`, the CSV writer) is modelled by passing
  the observed data in explicitly and returning the emitted events.
* Python string primitives (`str.strip`, `str.split(",")`, `str.startswith`)
  are modelled by structural functions on the character list so that the
  kernel can evaluate them; they cover the ASCII forms the devices emit.
-/

/-- Python exception values that the program can raise or catch. -/
inductive PyError where
  | valueError : String → PyError
  | keyError : String → PyError
  | ioError : String → PyError
  deriving Repr, DecidableEq

/-- Model of Python `str.strip()` (ASCII whitespace): drop whitespace from
both ends. -/
def pyStrip (s : String) : String :=
  String.mk ((s.data.dropWhile Char.isWhitespace).reverse.dropWhile Char.isWhitespace).reverse

/-- Helper for `pySplitComma`: `acc` is the current field, reversed. -/
def splitCommaAux : List Char → List Char → List String
  | [], acc => [String.mk acc.reverse]
  | c :: rest, acc =>
    if c = ',' then String.mk acc.reverse :: splitCommaAux rest []
    else splitCommaAux rest (c :: acc)

/-- Model of Python `s.split(",")`: fields between commas, `"" ↦ [""]`,
adjacent commas give empty fields. -/
def pySplitComma (s : String) : List String :=
  splitCommaAux s.data []

/-- Model of Python `s.startswith("#")`. -/
def startsWithHash (s : String) : Bool :=
  match s.data with
  | '#' :: _ => true
  | _ => false

/-- Value of a list of decimal digit characters, most significant first. -/
def digitsToNat (l : List Char) : Nat :=
  l.foldl (fun a c => a * 10 + (c.toNat - 48)) 0

/-- Nonempty and all ASCII decimal digits. -/
def isDigits (l : List Char) : Bool :=
  !l.isEmpty && l.all (·.isDigit)

/-- Model of Python `int(s)` on the strings this program meets: surrounding
whitespace is stripped, an optional sign precedes one or more ASCII decimal
digits; anything else raises `ValueError`, modelled as `none`. -/
def pyInt (s : String) : Option Int :=
  match (pyStrip s).data with
  | '-' :: rest => if isDigits rest then some (-(digitsToNat rest : Int)) else none
  | '+' :: rest => if isDigits rest then some ((digitsToNat rest : Int)) else none
  | cs => if isDigits cs then some ((digitsToNat cs : Int)) else none

/-- Strip one optional leading sign; `true` means negative. -/
def takeSign : List Char → Bool × List Char
  | '-' :: rest => (true, rest)
  | '+' :: rest => (false, rest)
  | cs => (false, cs)

/-- Mantissa of a Python float literal: `digits`, `digits.`, `.digits` or
`digits.digits`, with at least one digit overall; the value is returned as a
numerator/denominator pair (denominator a power of ten). -/
def parseMantissa (cs : List Char) : Option (Int × Nat) :=
  let ip := cs.takeWhile (·.isDigit)
  match cs.dropWhile (·.isDigit) with
  | [] => if ip.isEmpty then none else some ((digitsToNat ip : Int), 1)
  | '.' :: rest =>
    let fp := rest.takeWhile (·.isDigit)
    if (rest.dropWhile (·.isDigit)).isEmpty then
      if ip.isEmpty && fp.isEmpty then none
      else some ((digitsToNat ip * 10 ^ fp.length + digitsToNat fp : Int), 10 ^ fp.length)
    else none
  | _ => none

/-- Exponent part after `e`/`E`: optional sign then digits. -/
def parseExponent (cs : List Char) : Option Int :=
  let (neg, rest) := takeSign cs
  if isDigits rest then
    some (if neg then -(digitsToNat rest : Int) else (digitsToNat rest : Int))
  else none

/-- Model of Python `float(s)` on the decimal forms this program meets:
strip whitespace, optional sign, mantissa, optional `e`/`E` exponent. The
value is represented exactly as a rational; strings that Python's `float`
rejects (and the special forms `inf`/`nan`, which no sensor line uses) are
`none`, modelling a raised `ValueError`. -/
def pyFloat (s : String) : Option ℚ :=
  let cs := (pyStrip s).data
  let (neg, cs1) := takeSign cs
  let mant := cs1.takeWhile (fun c => !(c == 'e' || c == 'E'))
  let expOpt : Option Int :=
    match cs1.dropWhile (fun c => !(c == 'e' || c == 'E')) with
    | [] => some 0
    | _ :: rest => parseExponent rest
  match parseMantissa mant, expOpt with
  | some (mn, md), some e =>
    let n : Int := if neg then -mn else mn
    match e with
    | .ofNat k => some (mkRat (n * (10 : Int) ^ k) md)
    | .negSucc k => some (mkRat n (md * 10 ^ (k + 1)))
  | _, _ => none

/-- Decidable equality for `Except`, used to evaluate parser results. -/
instance exceptDecEq {ε α : Type} [DecidableEq ε] [DecidableEq α] :
    DecidableEq (Except ε α) := fun x y =>
  match x, y with
  | .error e, .error f =>
    if h : e = f then isTrue (by rw [h]) else isFalse (fun hh => h (Except.error.inj hh))
  | .ok a, .ok b =>
    if h : a = b then isTrue (by rw [h]) else isFalse (fun hh => h (Except.ok.inj hh))
  | .error _, .ok _ => isFalse (fun hh => Except.noConfusion hh)
  | .ok _, .error _ => isFalse (fun hh => Except.noConfusion hh)

/-- A structured sensor reading, the result of destructuring one data line. -/
structure Reading where
  serial : String
  timestamp : Int
  temperature : ℚ
  humidity : ℚ
  deriving Repr, DecidableEq

/-- Line 57 of `parse_sensor_line`: build the tuple from the four stripped
fields, `int(timestamp)`/`float(temperature)`/`float(humidity)` raising a
`ValueError` (`.error`) on a non-numeric field. -/
def parseFields (serial_number timestamp temperature humidity : String) :
    Except PyError (Option Reading) :=
  match pyInt timestamp with
  | none => .error (.valueError timestamp)
  | some t =>
    match pyFloat temperature with
    | none => .error (.valueError temperature)
    | some temp =>
      match pyFloat humidity with
      | none => .error (.valueError humidity)
      | some hum => .ok (some ⟨serial_number, t, temp, hum⟩)

/-- Embeds `parse_sensor_line` (lines 51–57): split on `","`, strip each
field; a field count other than 4 returns `None` (`.ok none`); otherwise the
fields are destructured and converted by `parseFields`, out of which a
`ValueError` propagates. -/
def parse_sensor_line (line : String) : Except PyError (Option Reading) :=
  match (pySplitComma line).map pyStrip with
  | [serial_number, timestamp, temperature, humidity] =>
    parseFields serial_number timestamp temperature humidity
  | _ => .ok none

/-- Embeds the module-level dict `serial_number_to_color` (lines 11–15). -/
def serial_number_to_color : List (String × String) :=
  [("0xEFCF86D7", "yellow"), ("0xF030D05B", "blue"), ("0xF030D0CF", "red")]

/-- Python `serial_number_to_color[sn]` as a partial lookup. -/
def lookupColor (sn : String) : Option String :=
  (serial_number_to_color.find? (fun p => p.1 = sn)).map (fun p => p.2)

/-- `max(len(color) for color in serial_number_to_color.values())` (line 30). -/
def color_max_length : Nat :=
  (serial_number_to_color.map (fun p => p.2.length)).foldl max 0

/-- Python format `f"(x):>w"`: right-justify to width `w` with spaces. -/
def rightJust (s : String) (w : Nat) : String :=
  String.mk (List.replicate (w - s.data.length) ' ') ++ s

/-- Embeds `MySerial.setDeviceColorBySerialNumber` (lines 27–42): on a serial
number present in the table, set the color and the padded
`device_with_color` label; the `KeyError` of an unknown serial number is
caught and the color falls back to `"unknown"`. Returns
`(color, device_with_color)`; total, i.e. never raises. -/
def setDeviceColorBySerialNumber (port : String) (serial_number : String) :
    String × String :=
  match lookupColor serial_number with
  | some color =>
    (color, port ++ " " ++ rightJust ("(" ++ color ++ ")") (color_max_length + 3))
  | none => ("unknown", port ++ " (unknown)")

/-- Embeds the loop body of `create_header` (lines 80–86): two columns per
handle; the dict accesses `serial_number_to_color[serial_number]` are
unguarded, so an unknown serial number raises `KeyError`. -/
def headerCols : List String → Except PyError (List String)
  | [] => .ok []
  | sn :: rest =>
    match lookupColor sn with
    | none => .error (.keyError sn)
    | some color =>
      match headerCols rest with
      | .error e => .error e
      | .ok cols =>
        .ok ((sn ++ "_" ++ color ++ "_temperature (degrees C)")
          :: (sn ++ "_" ++ color ++ "_humidity (% rH)") :: cols)

/-- Embeds `create_header` (lines 77–87): `["timestamp"]` followed by a
temperature and a humidity column per serial handle, in handle order. -/
def create_header (serials : List String) : Except PyError (List String) :=
  match headerCols serials with
  | .error e => .error e
  | .ok cols => .ok ("timestamp" :: cols)

/-- Embeds `get_serial_number` (lines 66–74), with the device's response to
the `b"n"` command passed in as `readResult` (`.error` = the read or the
UTF-8 decode raised). The internal `try`/`except Exception` means the
function itself never raises: any error yields `None`, otherwise the decoded
line is stripped and returned. -/
def get_serial_number (readResult : Except PyError String) : Option String :=
  match readResult with
  | .ok s => some (pyStrip s)
  | .error _ => none

/-- What happens for one candidate port inside the `for` body of
`open_serial_ports` (lines 101–115), as observed behaviour of the device:
the `MySerial` constructor raises; or the banner drain
(`empty_serial_buffer`, e.g. a UTF-8 decode error) raises after the handle
was opened; or control reaches `get_serial_number`, whose read outcome is
recorded. -/
inductive OpenStep where
  | openRaises : PyError → OpenStep
  | bufferRaises : PyError → OpenStep
  | serialRead : Except PyError String → OpenStep
  deriving Repr, DecidableEq

/-- Result of `open_serial_ports`: the active handles `(port, serial)` in
port order, and the ports whose handle was closed during opening. -/
structure OpenResult where
  handles : List (String × String)
  closedDuringOpen : List String
  deriving Repr, DecidableEq

/-- Python `if not serial_number:`— `None` and the empty string are falsy. -/
def serialFalsy : Option String → Bool
  | none => true
  | some s => s = ""

/-- Embeds `open_serial_ports` (lines 98–116). A constructor or banner-drain
exception is caught by the `except` at line 114 and the port is skipped (the
handle, if any, is not closed). A falsy serial number closes the handle and
skips the port (lines 107–110); otherwise the handle joins the active set. -/
def open_serial_ports : List (String × OpenStep) → OpenResult
  | [] => ⟨[], []⟩
  | (p, step) :: rest =>
    match step with
    | .openRaises _ => open_serial_ports rest
    | .bufferRaises _ => open_serial_ports rest
    | .serialRead rd =>
      let r := open_serial_ports rest
      if serialFalsy (get_serial_number rd) then
        ⟨r.handles, p :: r.closedDuringOpen⟩
      else
        ⟨(p, (get_serial_number rd).getD "") :: r.handles, r.closedDuringOpen⟩

/-- A CSV cell value: the integer timestamp or a numeric measurement. -/
inductive Cell where
  | int : Int → Cell
  | num : ℚ → Cell
  deriving Repr, DecidableEq

/-- Python list slice assignment `l[a:b] = vals` (non-negative indices):
clamp `a` and `b` to the list, then replace the slice with `vals`. -/
def sliceAssign {α : Type} (l : List α) (a b : Nat) (vals : List α) : List α :=
  l.take (min a l.length) ++ vals ++ l.drop (min (max b a) l.length)

/-- The row built for device `i` from reading `r` in the tick loop (lines
159, 173–174): `row = [None] * len(header)`; `row[0] = timestamp`;
`row[i * 2 + 1 : i * 2 + 3] = [temperature, humidity]`. -/
def makeRow (headerLen i : Nat) (r : Reading) : List (Option Cell) :=
  sliceAssign
    ((List.replicate headerLen (none : Option Cell)).set 0 (some (Cell.int r.timestamp)))
    (i * 2 + 1) (i * 2 + 3)
    [some (Cell.num r.temperature), some (Cell.num r.humidity)]

/-- One device's observable behaviour during a tick: no buffered input
(`ser.in_waiting` falsy), a raising read/decode, or a decoded line. -/
inductive DeviceTick where
  | noData : DeviceTick
  | readError : PyError → DeviceTick
  | line : String → DeviceTick
  deriving Repr, DecidableEq

/-- Classification of one device's slice of the tick loop body. -/
inductive TickOutcome where
  | silent : TickOutcome
  | blank : TickOutcome
  | comment : String → TickOutcome
  | malformed : String → TickOutcome
  | errorCaught : PyError → TickOutcome
  | logged : List (Option Cell) → TickOutcome
  deriving Repr, DecidableEq

/-- Embeds the per-device body of the tick loop (lines 158–178) for device
index `i`. The loop binds `serial_number` for the session but line 172
discards the parsed serial field (`_`), so `session_serial` is unused.
Exceptions from the read, the decode or `parse_sensor_line` are caught by
the `except Exception` at line 177. -/
def deviceTickRow (headerLen i : Nat) (session_serial : String) (d : DeviceTick) :
    TickOutcome :=
  match d with
  | .noData => .silent
  | .readError e => .errorCaught e
  | .line s =>
    let line := pyStrip s
    if line = "" then .blank
    else if startsWithHash line then .comment line
    else
      match parse_sensor_line line with
      | .error e => .errorCaught e
      | .ok none => .malformed line
      | .ok (some r) => .logged (makeRow headerLen i r)

/-- The `for i, (port, ser, serial_number) in enumerate(serial_handles)`
loop of one tick (line 158), device `i` onward: one outcome per device. -/
def tickOutcomes (headerLen i : Nat) : List (String × DeviceTick) → List TickOutcome
  | [] => []
  | (sn, d) :: rest => deviceTickRow headerLen i sn d :: tickOutcomes headerLen (i + 1) rest

/-- The row a `.logged` outcome writes, if any. -/
def loggedRow : TickOutcome → Option (List (Option Cell))
  | .logged r => some r
  | _ => none

/-- The rows `writer.writerow(row)` emits during one tick, in device order
(line 175 runs once per device whose line parsed). -/
def writtenRows (headerLen : Nat) (ds : List (String × DeviceTick)) :
    List (List (Option Cell)) :=
  (tickOutcomes headerLen 0 ds).filterMap loggedRow

/-- Observable events on the open CSV file. -/
inductive SinkEvent where
  | writeRow : List (Option Cell) → SinkEvent
  | flush : SinkEvent
  deriving Repr, DecidableEq

/-- The sink events of one tick of `log_sensor_data` (lines 149–180):
`current_time` is the wall-clock value read at line 151 — the source uses it
only for the cadence check (lines 152–156), never in a row — then one
`writerow` per successfully parsed device line, then the single
`file.flush()` at line 179. -/
def tickEvents (current_time : ℚ) (headerLen : Nat)
    (ds : List (String × DeviceTick)) : List SinkEvent :=
  ((tickOutcomes headerLen 0 ds).filterMap loggedRow).map SinkEvent.writeRow
    ++ [SinkEvent.flush]

/-- Checks that every written row is immediately followed by a flush (the
reading of “flushed after every row”). -/
def flushAfterEachWrite : List SinkEvent → Bool
  | [] => true
  | .flush :: rest => flushAfterEachWrite rest
  | .writeRow _ :: .flush :: rest => flushAfterEachWrite rest
  | .writeRow _ :: _ => false

/-- How the infinite tick loop of `log_sensor_data` was left: `KeyboardInterrupt`
(Ctrl+C) or an uncaught exception (e.g. from `file.flush`). -/
inductive LogExit where
  | keyboardInterrupt : LogExit
  | raised : PyError → LogExit
  deriving Repr, DecidableEq

/-- Observable shutdown events of `main`. -/
inductive RunEvent where
  | closed : String → RunEvent
  | interruptedMsg : RunEvent
  | reraised : PyError → RunEvent
  deriving Repr, DecidableEq

/-- Embeds `close_serial_ports` (lines 183–186): close every handle, in
order. -/
def close_serial_ports (handles : List String) : List RunEvent :=
  handles.map RunEvent.closed

/-- Embeds the `try`/`except KeyboardInterrupt`/`finally` of `main` (lines
205–210) around the tick loop: on Ctrl+C the message is printed and the
`finally` closes every handle; on any other exception the `finally` closes
every handle and the exception propagates. -/
def mainFinally (handles : List String) (exit : LogExit) : List RunEvent :=
  match exit with
  | .keyboardInterrupt => RunEvent.interruptedMsg :: close_serial_ports handles
  | .raised e => close_serial_ports handles ++ [RunEvent.reraised e]

/-! ## Helper lemmas -/

/-- If a line splits into exactly four stripped fields, `parse_sensor_line`
is `parseFields` on them. -/
theorem parse_sensor_line_eq_parseFields {line sn ts tp hm : String}
    (h : (pySplitComma line).map pyStrip = [sn, ts, tp, hm]) :
    parse_sensor_line line = parseFields sn ts tp hm := by
  unfold parse_sensor_line
  rw [h]

/-! ## Claim theorems -/

/-- C1, counterexample: the line "a,b,c,d" splits on commas into exactly 4
fields with a non-integer timestamp field, and `parse_sensor_line` raises
`ValueError` out of the function instead of yielding the Malformed
classification (`None`). -/
theorem C1_counterexample :
    parse_sensor_line "a,b,c,d" = .error (.valueError "b") ∧
    parse_sensor_line "a,b,c,d" ≠ .ok none := by decide

/-- C1, amended: for a field count other than 4 `parse_sensor_line` returns
the Malformed classification (`None`) without raising; for a 4-field line
with a non-numeric field it raises `ValueError`, which the caller's
per-device `except Exception` handler (line 177) catches, so no exception
propagates past the caller and subsequent lines keep being processed. -/
theorem C1_amended :
    (∀ line : String, ((pySplitComma line).map pyStrip).length ≠ 4 →
      parse_sensor_line line = .ok none) ∧
    (∀ (headerLen i : Nat) (sn s : String) (e : PyError),
      pyStrip s ≠ "" → startsWithHash (pyStrip s) = false →
      parse_sensor_line (pyStrip s) = .error e →
      deviceTickRow headerLen i sn (.line s) = .errorCaught e) := by
  constructor
  · intro line h
    unfold parse_sensor_line
    split
    · rename_i a b c d heq
      rw [heq] at h
      simp at h
    · rfl
  · intro hl i sn s e hne hsw hp
    simp only [deviceTickRow]
    rw [if_neg hne, hsw]
    simp only [Bool.false_eq_true, if_false]
    rw [hp]

/-- Witness for the amended C1: a 2-field line is Malformed; a 4-field
non-numeric line is caught by the caller and classified as a caught error. -/
theorem C1_witness :
    parse_sensor_line "a,b" = .ok none ∧
    deviceTickRow 3 0 "A1" (.line "a,b,c,d") = .errorCaught (.valueError "b") :=
  ⟨C1_amended.1 "a,b" (by decide),
   C1_amended.2 3 0 "A1" "a,b,c,d" (.valueError "b") (by decide) (by decide) (by decide)⟩

/-- C2: every line that splits on the comma delimiter into exactly 4 trimmed
fields whose timestamp parses as an integer and whose temperature and
humidity parse as numbers yields the `Reading` that is exactly the
structured decomposition of those fields. -/
theorem C2_wellformed_reading (line sn ts tp hm : String) (t : Int) (x y : ℚ)
    (hsplit : (pySplitComma line).map pyStrip = [sn, ts, tp, hm])
    (hts : pyInt ts = some t) (htp : pyFloat tp = some x) (hhm : pyFloat hm = some y) :
    parse_sensor_line line = .ok (some ⟨sn, t, x, y⟩) := by
  rw [parse_sensor_line_eq_parseFields hsplit]
  unfold parseFields
  rw [hts, htp, hhm]

/-- Witness for C2 on the line "A1, 100, 22.5, 40.1". -/
theorem C2_witness :
    parse_sensor_line "A1, 100, 22.5, 40.1" =
      .ok (some ⟨"A1", 100, mkRat 45 2, mkRat 401 10⟩) :=
  C2_wellformed_reading "A1, 100, 22.5, 40.1" "A1" "100" "22.5" "40.1" 100
    (mkRat 45 2) (mkRat 401 10) (by decide) (by decide) (by decide) (by decide)

/-- C5, counterexample: the session identified as "A1" reads a valid line
whose serial field is "ZZZZ"; it is not treated as Malformed — the values
are stored at the session's columns and the row is emitted. -/
theorem C5_counterexample :
    deviceTickRow 3 0 "A1" (.line "ZZZZ,5,1.0,2.0") =
      .logged [some (Cell.int 5), some (Cell.num 1), some (Cell.num 2)] ∧
    deviceTickRow 3 0 "A1" (.line "ZZZZ,5,1.0,2.0") ≠ .malformed "ZZZZ,5,1.0,2.0" := by
  decide

/-- C5, amended: line 172 discards the parsed serial field, so a valid
reading is logged at the reading session's columns and emitted even when its
serial number differs from the session's own serial number; no mismatch
check exists. -/
theorem C5_amended (headerLen i : Nat) (sn s : String) (r : Reading)
    (hne : pyStrip s ≠ "") (hsw : startsWithHash (pyStrip s) = false)
    (hp : parse_sensor_line (pyStrip s) = .ok (some r)) (hmism : r.serial ≠ sn) :
    deviceTickRow headerLen i sn (.line s) = .logged (makeRow headerLen i r) := by
  simp only [deviceTickRow]
  rw [if_neg hne, hsw]
  simp only [Bool.false_eq_true, if_false]
  rw [hp]

/-- Witness for the amended C5 with session serial "A1" and line serial
"ZZZZ". -/
theorem C5_witness :
    deviceTickRow 3 0 "A1" (.line "ZZZZ,5,1.0,2.0") =
      .logged (makeRow 3 0 ⟨"ZZZZ", 5, 1, 2⟩) :=
  C5_amended 3 0 "A1" "ZZZZ,5,1.0,2.0" ⟨"ZZZZ", 5, 1, 2⟩
    (by decide) (by decide) (by decide) (by decide)

/-- C6, code bug: for a serial number absent from `serial_number_to_color`,
identification assigns the fallback label "unknown" without raising (the
`KeyError` is caught), but `create_header` performs the same dict access
unguarded and raises `KeyError`, so header construction fails for that
device and the run aborts instead of including it in the schema. -/
theorem C6_code_bug :
    setDeviceColorBySerialNumber "COM3" "0xDEAD" = ("unknown", "COM3 (unknown)") ∧
    create_header ["0xDEAD"] = .error (.keyError "0xDEAD") ∧
    create_header ["0xDEAD", "0xEFCF86D7"] = .error (.keyError "0xDEAD") := by
  decide

/-- Python slice assignment on a tail: shifting both bounds over a kept
head. -/
theorem sliceAssign_cons {α : Type} (x : α) (l : List α) (a b : Nat) (vals : List α) :
    sliceAssign (x :: l) (a + 1) (b + 1) vals = x :: sliceAssign l a b vals := by
  unfold sliceAssign
  have h1 : min (a + 1) (x :: l).length = min a l.length + 1 := by
    simp only [List.length_cons]; omega
  have h2 : min (max (b + 1) (a + 1)) (x :: l).length = min (max b a) l.length + 1 := by
    simp only [List.length_cons]; omega
  rw [h1, h2, List.take_succ_cons, List.drop_succ_cons]
  rfl

/-- Peeling the timestamp cell off a freshly built row. -/
theorem makeRow_succ (m i : Nat) (r : Reading) :
    makeRow (m + 1) i r =
      some (Cell.int r.timestamp) ::
        sliceAssign (List.replicate m (none : Option Cell)) (i * 2) (i * 2 + 2)
          [some (Cell.num r.temperature), some (Cell.num r.humidity)] := by
  unfold makeRow
  rw [List.replicate_succ, List.set_cons_zero]
  exact sliceAssign_cons (some (Cell.int r.timestamp)) (List.replicate m none)
    (i * 2) (i * 2 + 2) [some (Cell.num r.temperature), some (Cell.num r.humidity)]

/-- C3, counterexample: in a tick where both the "A1" and the "B2" session
report valid lines (22.5/40.1 and 23.0/41.0), the program emits two rows —
one per device, each with the other device's cells empty — and never the
single combined row `[tick_ts, 22.5, 40.1, 23.0, 41.0]` the claim
describes. -/
theorem C3_counterexample :
    writtenRows 5 [("A1", DeviceTick.line "A1,100,22.5,40.1"),
        ("B2", DeviceTick.line "B2,100,23.0,41.0")] =
      [[some (Cell.int 100), some (Cell.num (mkRat 45 2)), some (Cell.num (mkRat 401 10)),
          none, none],
        [some (Cell.int 100), none, none, some (Cell.num 23), some (Cell.num 41)]] ∧
    (writtenRows 5 [("A1", DeviceTick.line "A1,100,22.5,40.1"),
        ("B2", DeviceTick.line "B2,100,23.0,41.0")]).length ≠ 1 ∧
    [some (Cell.int 100), some (Cell.num (mkRat 45 2)), some (Cell.num (mkRat 401 10)),
        some (Cell.num 23), some (Cell.num 41)] ∉
      writtenRows 5 [("A1", DeviceTick.line "A1,100,22.5,40.1"),
        ("B2", DeviceTick.line "B2,100,23.0,41.0")] := by
  decide

/-- C3, amended: each device that produces a valid line in a tick emits its
own row, carrying that device's values at its fixed offset and empty cells
everywhere else; a device with no data emits no row and does not block the
other device's row. For the scenario devices: both reporting gives the two
rows `[100, 22.5, 40.1, ∅, ∅]` and `[100, ∅, ∅, 23.0, 41.0]`; either one
alone gives just its own row. -/
theorem C3_amended :
    writtenRows 5 [("A1", DeviceTick.line "A1,100,22.5,40.1"),
        ("B2", DeviceTick.line "B2,100,23.0,41.0")] =
      [[some (Cell.int 100), some (Cell.num (mkRat 45 2)), some (Cell.num (mkRat 401 10)),
          none, none],
        [some (Cell.int 100), none, none, some (Cell.num 23), some (Cell.num 41)]] ∧
    writtenRows 5 [("A1", DeviceTick.line "A1,100,22.5,40.1"), ("B2", DeviceTick.noData)] =
      [[some (Cell.int 100), some (Cell.num (mkRat 45 2)), some (Cell.num (mkRat 401 10)),
          none, none]] ∧
    writtenRows 5 [("A1", DeviceTick.noData), ("B2", DeviceTick.line "B2,100,23.0,41.0")] =
      [[some (Cell.int 100), none, none, some (Cell.num 23), some (Cell.num 41)]] := by
  decide

/-- C4, counterexample: with the scheduler's wall-clock tick value 1000, the
single emitted row starts with the device-reported timestamp 999; changing
the wall clock to 2000 changes nothing, while changing the device timestamp
to 777 changes the first cell — so the first cell is the device-local
timestamp, not a wall-clock-derived value. -/
theorem C4_counterexample :
    tickEvents 1000 3 [("A1", DeviceTick.line "A1,999,22.5,40.1")] =
      [SinkEvent.writeRow [some (Cell.int 999), some (Cell.num (mkRat 45 2)),
        some (Cell.num (mkRat 401 10))], SinkEvent.flush] ∧
    tickEvents 2000 3 [("A1", DeviceTick.line "A1,999,22.5,40.1")] =
      [SinkEvent.writeRow [some (Cell.int 999), some (Cell.num (mkRat 45 2)),
        some (Cell.num (mkRat 401 10))], SinkEvent.flush] ∧
    tickEvents 1000 3 [("A1", DeviceTick.line "A1,777,22.5,40.1")] =
      [SinkEvent.writeRow [some (Cell.int 777), some (Cell.num (mkRat 45 2)),
        some (Cell.num (mkRat 401 10))], SinkEvent.flush] := by
  decide

/-- C4, amended: the tick's wall-clock value (`current_time`, line 151) is
used only for cadence and never reaches a row: the emitted events are
independent of it, and every logged row's first cell is the device-local
timestamp parsed from the reporting device's own line. -/
theorem C4_amended :
    (∀ (t1 t2 : ℚ) (hl : Nat) (ds : List (String × DeviceTick)),
      tickEvents t1 hl ds = tickEvents t2 hl ds) ∧
    (∀ (hl i : Nat) (sn s : String) (r : Reading), 1 ≤ hl →
      pyStrip s ≠ "" → startsWithHash (pyStrip s) = false →
      parse_sensor_line (pyStrip s) = .ok (some r) →
      ∃ rest, deviceTickRow hl i sn (.line s) =
        .logged (some (Cell.int r.timestamp) :: rest)) := by
  constructor
  · intro t1 t2 hl ds
    rfl
  · intro hl i sn s r hhl hne hsw hp
    obtain ⟨m, rfl⟩ : ∃ m, hl = m + 1 := ⟨hl - 1, by omega⟩
    refine ⟨sliceAssign (List.replicate m (none : Option Cell)) (i * 2) (i * 2 + 2)
      [some (Cell.num r.temperature), some (Cell.num r.humidity)], ?_⟩
    simp only [deviceTickRow]
    rw [if_neg hne, hsw]
    simp only [Bool.false_eq_true, if_false]
    rw [hp]
    show TickOutcome.logged (makeRow (m + 1) i r) = _
    rw [makeRow_succ]

/-- Witness for the amended C4: events ignore the wall clock, and the row
for the line "A1,999,22.5,40.1" starts with cell 999. -/
theorem C4_witness :
    tickEvents 1000 3 [("A1", DeviceTick.line "A1,999,22.5,40.1")] =
      tickEvents 2000 3 [("A1", DeviceTick.line "A1,999,22.5,40.1")] ∧
    ∃ rest, deviceTickRow 3 0 "A1" (.line "A1,999,22.5,40.1") =
      .logged (some (Cell.int 999) :: rest) :=
  ⟨C4_amended.1 1000 2000 3 [("A1", DeviceTick.line "A1,999,22.5,40.1")],
   C4_amended.2 3 0 "A1" "A1,999,22.5,40.1" ⟨"A1", 999, mkRat 45 2, mkRat 401 10⟩
     (by decide) (by decide) (by decide) (by decide)⟩

/-- C9, counterexample: a tick in which two devices report produces the
event trace `[writerow, writerow, flush]` — the first row is not followed by
a flush before the second row is written, so the sink is not flushed after
every row. -/
theorem C9_counterexample :
    tickEvents 0 5 [("A1", DeviceTick.line "A1,100,22.5,40.1"),
        ("B2", DeviceTick.line "B2,100,23.0,41.0")] =
      [SinkEvent.writeRow [some (Cell.int 100), some (Cell.num (mkRat 45 2)),
          some (Cell.num (mkRat 401 10)), none, none],
        SinkEvent.writeRow [some (Cell.int 100), none, none, some (Cell.num 23),
          some (Cell.num 41)],
        SinkEvent.flush] ∧
    flushAfterEachWrite (tickEvents 0 5 [("A1", DeviceTick.line "A1,100,22.5,40.1"),
        ("B2", DeviceTick.line "B2,100,23.0,41.0")]) = false := by
  decide

/-- C9, amended: the sink is flushed exactly once per tick, after all of the
tick's rows: every tick's event trace is its writes (which contain no flush)
followed by a single final flush, so a tick's rows are all flushed before
any later tick writes. -/
theorem C9_amended (t : ℚ) (hl : Nat) (ds : List (String × DeviceTick)) :
    tickEvents t hl ds = (writtenRows hl ds).map SinkEvent.writeRow ++ [SinkEvent.flush] ∧
    SinkEvent.flush ∉ (writtenRows hl ds).map SinkEvent.writeRow ∧
    (tickEvents t hl ds).getLast? = some SinkEvent.flush := by
  refine ⟨rfl, ?_, ?_⟩
  · intro hmem
    rw [List.mem_map] at hmem
    obtain ⟨r, _, hr⟩ := hmem
    exact SinkEvent.noConfusion hr
  · show ((writtenRows hl ds).map SinkEvent.writeRow ++ [SinkEvent.flush]).getLast? = _
    rw [List.getLast?_concat]

/-- C8: whatever way the tick loop is left — `KeyboardInterrupt` from the
user, or an exception raised during logging — the `finally` block of `main`
runs `close_serial_ports`, which closes each opened session's handle exactly
once (once per occurrence of the handle in the active list). -/
theorem C8_close_exactly_once (handles : List String) (ex : LogExit) (p : String) :
    (mainFinally handles ex).count (RunEvent.closed p) = handles.count p := by
  have hmap : (close_serial_ports handles).count (RunEvent.closed p) = handles.count p := by
    unfold close_serial_ports
    exact List.count_map_of_injective handles RunEvent.closed
      (fun a b h => by injection h) p
  cases ex with
  | keyboardInterrupt => simp [mainFinally, List.count_cons, hmap]
  | raised e => simp [mainFinally, List.count_append, List.count_cons, hmap]

/-- Replacing a slice by a list of the slice's size keeps the length. -/
theorem sliceAssign_length {α : Type} (l : List α) (a b : Nat) (vals : List α)
    (hab : a ≤ b) (hb : b ≤ l.length) (hv : vals.length = b - a) :
    (sliceAssign l a b vals).length = l.length := by
  unfold sliceAssign
  simp only [List.length_append, List.length_take, List.length_drop]
  omega

/-- A built row has exactly the header's length whenever the device's slice
fits, i.e. `i * 2 + 3 ≤ headerLen`. -/
theorem makeRow_length (hl i : Nat) (r : Reading) (h : i * 2 + 3 ≤ hl) :
    (makeRow hl i r).length = hl := by
  unfold makeRow
  rw [sliceAssign_length]
  · simp
  · omega
  · simp only [List.length_set, List.length_replicate]
    omega
  · simp only [List.length_cons, List.length_nil]
    omega

/-- A `.logged` outcome always carries a row built by `makeRow` for that
device index. -/
theorem deviceTickRow_logged {hl i : Nat} {sn : String} {d : DeviceTick}
    {row : List (Option Cell)} (h : deviceTickRow hl i sn d = .logged row) :
    ∃ r, row = makeRow hl i r := by
  cases d with
  | noData => exact absurd h (by simp [deviceTickRow])
  | readError e => exact absurd h (by simp [deviceTickRow])
  | line s =>
    simp only [deviceTickRow] at h
    split at h
    · exact absurd h (by simp)
    · split at h
      · exact absurd h (by simp)
      · split at h
        · exact absurd h (by simp)
        · exact absurd h (by simp)
        · rename_i r heq
          exact ⟨r, (TickOutcome.logged.inj h).symm⟩

/-- Every row written during a tick has the header's length, provided the
device slices fit the header (`2 * i + 2 * count + 1 ≤ headerLen`). -/
theorem tickRows_length (hl : Nat) (ds : List (String × DeviceTick)) :
    ∀ i : Nat, 2 * i + 2 * ds.length + 1 ≤ hl →
      ∀ row ∈ (tickOutcomes hl i ds).filterMap loggedRow, row.length = hl := by
  induction ds with
  | nil =>
    intro i h row hrow
    simp [tickOutcomes] at hrow
  | cons hd tl ih =>
    intro i h row hrow
    obtain ⟨sn, d⟩ := hd
    simp only [List.length_cons] at h
    simp only [tickOutcomes, List.filterMap_cons] at hrow
    cases hcase : loggedRow (deviceTickRow hl i sn d) with
    | none =>
      rw [hcase] at hrow
      exact ih (i + 1) (by omega) row hrow
    | some row0 =>
      rw [hcase] at hrow
      rcases List.mem_cons.mp hrow with heq | hm
      · have hlog : deviceTickRow hl i sn d = TickOutcome.logged row0 := by
          cases hdt : deviceTickRow hl i sn d <;>
            rw [hdt] at hcase <;> simp [loggedRow] at hcase
          rw [hcase]
        obtain ⟨r, hr⟩ := deviceTickRow_logged hlog
        rw [heq, hr]
        exact makeRow_length hl i r (by omega)
      · exact ih (i + 1) (by omega) row hm

/-- `headerCols` yields two columns per known serial number. -/
theorem headerCols_length (serials : List String) :
    ∀ cols, headerCols serials = .ok cols → cols.length = 2 * serials.length := by
  induction serials with
  | nil =>
    intro cols h
    simp only [headerCols] at h
    rw [← Except.ok.inj h]
    rfl
  | cons sn rest ih =>
    intro cols h
    simp only [headerCols] at h
    cases hc : lookupColor sn with
    | none =>
      rw [hc] at h
      exact absurd h (by simp)
    | some color =>
      rw [hc] at h
      cases hr : headerCols rest with
      | error e =>
        rw [hr] at h
        exact absurd h (by simp)
      | ok cols2 =>
        rw [hr] at h
        rw [← Except.ok.inj h]
        simp only [List.length_cons, ih cols2 hr]
        omega

/-- A successfully constructed header has `1 + 2 × (device count)` columns. -/
theorem create_header_length (serials header : List String)
    (h : create_header serials = .ok header) :
    header.length = 1 + 2 * serials.length := by
  unfold create_header at h
  cases hr : headerCols serials with
  | error e =>
    rw [hr] at h
    exact absurd h (by simp)
  | ok cols =>
    rw [hr] at h
    rw [← Except.ok.inj h]
    simp only [List.length_cons, headerCols_length serials cols hr]
    omega

/-- C7: for a session whose header was built from the active serial numbers,
the header has `1 + 2 × N` columns and every row emitted in a tick with the
same `N` devices has exactly that many cells — row length is constant across
the session and equals the header's column count. -/
theorem C7_row_length (serials header : List String) (ds : List (String × DeviceTick))
    (hh : create_header serials = .ok header) (hn : ds.length = serials.length) :
    header.length = 1 + 2 * serials.length ∧
    ∀ row ∈ writtenRows header.length ds, row.length = header.length := by
  have hlen := create_header_length serials header hh
  refine ⟨hlen, ?_⟩
  intro row hrow
  exact tickRows_length header.length ds 0 (by rw [hlen, hn]; omega) row hrow

/-- Witness for C7 with two known devices, one reporting and one silent. -/
theorem C7_witness :
    (["timestamp", "0xEFCF86D7_yellow_temperature (degrees C)",
      "0xEFCF86D7_yellow_humidity (% rH)",
      "0xF030D05B_blue_temperature (degrees C)",
      "0xF030D05B_blue_humidity (% rH)"] : List String).length =
        1 + 2 * (["0xEFCF86D7", "0xF030D05B"] : List String).length ∧
    ∀ row ∈ writtenRows (["timestamp", "0xEFCF86D7_yellow_temperature (degrees C)",
      "0xEFCF86D7_yellow_humidity (% rH)",
      "0xF030D05B_blue_temperature (degrees C)",
      "0xF030D05B_blue_humidity (% rH)"] : List String).length
        [("0xEFCF86D7", DeviceTick.line "0xEFCF86D7,1,22.5,40.1"),
         ("0xF030D05B", DeviceTick.noData)],
      row.length = (["timestamp", "0xEFCF86D7_yellow_temperature (degrees C)",
        "0xEFCF86D7_yellow_humidity (% rH)",
        "0xF030D05B_blue_temperature (degrees C)",
        "0xF030D05B_blue_humidity (% rH)"] : List String).length :=
  C7_row_length ["0xEFCF86D7", "0xF030D05B"]
    ["timestamp", "0xEFCF86D7_yellow_temperature (degrees C)",
      "0xEFCF86D7_yellow_humidity (% rH)",
      "0xF030D05B_blue_temperature (degrees C)",
      "0xF030D05B_blue_humidity (% rH)"]
    [("0xEFCF86D7", DeviceTick.line "0xEFCF86D7,1,22.5,40.1"),
     ("0xF030D05B", DeviceTick.noData)]
    (by decide) (by decide)

/-- C10: `get_serial_number` never propagates an exception — any read or
decode error yields `None` and a successful read yields the decoded,
whitespace-stripped line — and `open_serial_ports` excludes a device whose
`get_serial_number` ran, closing its handle, exactly when the returned
serial number is `None` or empty: the active set contains exactly the ports
with a non-falsy serial, and the closed-during-open list exactly the ports
with a falsy one. -/
theorem C10_serial_and_exclusion :
    (∀ e, get_serial_number (.error e) = none) ∧
    (∀ s, get_serial_number (.ok s) = some (pyStrip s)) ∧
    ∀ ports : List (String × OpenStep),
      (∀ q sn, (q, sn) ∈ (open_serial_ports ports).handles →
        ∃ rd, (q, OpenStep.serialRead rd) ∈ ports ∧
          get_serial_number rd = some sn ∧ sn ≠ "") ∧
      (∀ q, q ∈ (open_serial_ports ports).closedDuringOpen →
        ∃ rd, (q, OpenStep.serialRead rd) ∈ ports ∧
          serialFalsy (get_serial_number rd) = true) ∧
      (∀ q rd, (q, OpenStep.serialRead rd) ∈ ports →
        serialFalsy (get_serial_number rd) = false →
        (q, (get_serial_number rd).getD "") ∈ (open_serial_ports ports).handles) ∧
      (∀ q rd, (q, OpenStep.serialRead rd) ∈ ports →
        serialFalsy (get_serial_number rd) = true →
        q ∈ (open_serial_ports ports).closedDuringOpen) := by
  refine ⟨fun e => rfl, fun s => rfl, ?_⟩
  intro ports
  induction ports with
  | nil =>
    exact ⟨fun q sn h => absurd h (by simp [open_serial_ports]),
      fun q h => absurd h (by simp [open_serial_ports]),
      fun q rd h _ => absurd h (by simp),
      fun q rd h _ => absurd h (by simp)⟩
  | cons hd rest ih =>
    obtain ⟨p, step⟩ := hd
    obtain ⟨ih1, ih2, ih3, ih4⟩ := ih
    cases step with
    | openRaises e =>
      refine ⟨?_, ?_, ?_, ?_⟩
      · intro q sn h
        obtain ⟨rd, hm, hr⟩ := ih1 q sn h
        exact ⟨rd, List.mem_cons_of_mem _ hm, hr⟩
      · intro q h
        obtain ⟨rd, hm, hr⟩ := ih2 q h
        exact ⟨rd, List.mem_cons_of_mem _ hm, hr⟩
      · intro q rd h hf
        rcases List.mem_cons.mp h with heq | hm
        · exact absurd (congrArg Prod.snd heq) (by simp)
        · exact ih3 q rd hm hf
      · intro q rd h hf
        rcases List.mem_cons.mp h with heq | hm
        · exact absurd (congrArg Prod.snd heq) (by simp)
        · exact ih4 q rd hm hf
    | bufferRaises e =>
      refine ⟨?_, ?_, ?_, ?_⟩
      · intro q sn h
        obtain ⟨rd, hm, hr⟩ := ih1 q sn h
        exact ⟨rd, List.mem_cons_of_mem _ hm, hr⟩
      · intro q h
        obtain ⟨rd, hm, hr⟩ := ih2 q h
        exact ⟨rd, List.mem_cons_of_mem _ hm, hr⟩
      · intro q rd h hf
        rcases List.mem_cons.mp h with heq | hm
        · exact absurd (congrArg Prod.snd heq) (by simp)
        · exact ih3 q rd hm hf
      · intro q rd h hf
        rcases List.mem_cons.mp h with heq | hm
        · exact absurd (congrArg Prod.snd heq) (by simp)
        · exact ih4 q rd hm hf
    | serialRead rd0 =>
      by_cases hf0 : serialFalsy (get_serial_number rd0) = true
      · have hopen : open_serial_ports ((p, OpenStep.serialRead rd0) :: rest) =
            ⟨(open_serial_ports rest).handles,
              p :: (open_serial_ports rest).closedDuringOpen⟩ := by
          simp only [open_serial_ports]
          rw [if_pos hf0]
        refine ⟨?_, ?_, ?_, ?_⟩
        · intro q sn h
          rw [hopen] at h
          obtain ⟨rd, hm, hr⟩ := ih1 q sn h
          exact ⟨rd, List.mem_cons_of_mem _ hm, hr⟩
        · intro q h
          rw [hopen] at h
          rcases List.mem_cons.mp h with heq | hm
          · exact ⟨rd0, by rw [heq]; exact List.mem_cons_self _ _, hf0⟩
          · obtain ⟨rd, hm2, hr⟩ := ih2 q hm
            exact ⟨rd, List.mem_cons_of_mem _ hm2, hr⟩
        · intro q rd h hf
          rcases List.mem_cons.mp h with heq | hm
          · have h1 : rd = rd0 := OpenStep.serialRead.inj (congrArg Prod.snd heq)
            rw [h1] at hf
            rw [hf] at hf0
            exact absurd hf0 (by simp)
          · rw [hopen]
            exact ih3 q rd hm hf
        · intro q rd h hf
          rw [hopen]
          rcases List.mem_cons.mp h with heq | hm
          · have h1 : q = p := congrArg Prod.fst heq
            rw [h1]
            exact List.mem_cons_self _ _
          · exact List.mem_cons_of_mem _ (ih4 q rd hm hf)
      · have hf0' : serialFalsy (get_serial_number rd0) = false := by
          cases hh : serialFalsy (get_serial_number rd0)
          · rfl
          · exact absurd hh hf0
        have hopen : open_serial_ports ((p, OpenStep.serialRead rd0) :: rest) =
            ⟨(p, (get_serial_number rd0).getD "") :: (open_serial_ports rest).handles,
              (open_serial_ports rest).closedDuringOpen⟩ := by
          simp only [open_serial_ports]
          rw [if_neg hf0]
        have hsome : ∃ s, get_serial_number rd0 = some s ∧ s ≠ "" := by
          cases hg : get_serial_number rd0 with
          | none =>
            rw [hg] at hf0'
            exact absurd hf0' (by simp [serialFalsy])
          | some s =>
            refine ⟨s, rfl, ?_⟩
            intro hs
            rw [hg, hs] at hf0'
            simp [serialFalsy] at hf0'
        refine ⟨?_, ?_, ?_, ?_⟩
        · intro q sn h
          rw [hopen] at h
          rcases List.mem_cons.mp h with heq | hm
          · obtain ⟨s, hg, hs⟩ := hsome
            have hq : q = p := congrArg Prod.fst heq
            have hsn : sn = (get_serial_number rd0).getD "" := congrArg Prod.snd heq
            refine ⟨rd0, by rw [hq]; exact List.mem_cons_self _ _, ?_, ?_⟩
            · rw [hsn, hg]
              rfl
            · rw [hsn, hg]
              exact hs
          · obtain ⟨rd, hm2, hr⟩ := ih1 q sn hm
            exact ⟨rd, List.mem_cons_of_mem _ hm2, hr⟩
        · intro q h
          rw [hopen] at h
          obtain ⟨rd, hm2, hr⟩ := ih2 q h
          exact ⟨rd, List.mem_cons_of_mem _ hm2, hr⟩
        · intro q rd h hf
          rw [hopen]
          rcases List.mem_cons.mp h with heq | hm
          · have hq : q = p := congrArg Prod.fst heq
            have hrd : rd = rd0 := OpenStep.serialRead.inj (congrArg Prod.snd heq)
            rw [hq, hrd]
            exact List.mem_cons_self _ _
          · exact List.mem_cons_of_mem _ (ih3 q rd hm hf)
        · intro q rd h hf
          rw [hopen]
          rcases List.mem_cons.mp h with heq | hm
          · have hrd : rd = rd0 := OpenStep.serialRead.inj (congrArg Prod.snd heq)
            rw [hrd] at hf
            rw [hf] at hf0'
            exact absurd hf0' (by simp)
          · exact ih4 q rd hm hf

/-- Witness for C10: a port answering " 0xEFCF86D7 " joins the active set
with the stripped serial, and a port whose read raised is closed during
opening. -/
theorem C10_witness :
    ("COM3", "0xEFCF86D7") ∈ (open_serial_ports
      [("COM3", OpenStep.serialRead (.ok " 0xEFCF86D7 ")),
       ("COM4", OpenStep.serialRead (.error (.ioError "timeout")))]).handles ∧
    "COM4" ∈ (open_serial_ports
      [("COM3", OpenStep.serialRead (.ok " 0xEFCF86D7 ")),
       ("COM4", OpenStep.serialRead (.error (.ioError "timeout")))]).closedDuringOpen :=
  ⟨(C10_serial_and_exclusion.2.2
      [("COM3", OpenStep.serialRead (.ok " 0xEFCF86D7 ")),
       ("COM4", OpenStep.serialRead (.error (.ioError "timeout")))]).2.2.1
    "COM3" (.ok " 0xEFCF86D7 ") (by decide) (by decide),
   (C10_serial_and_exclusion.2.2
      [("COM3", OpenStep.serialRead (.ok " 0xEFCF86D7 ")),
       ("COM4", OpenStep.serialRead (.error (.ioError "timeout")))]).2.2.2
    "COM4" (.error (.ioError "timeout")) (by decide) (by decide)⟩
